import Mathlib

/-
Shallow embedding of the SIP phone audio core:
  * src/sip_phone/core/buffer_manager.py   (class AudioBuffer)
  * src/sip_phone/hardware/audio_buffer.py (class AudioBuffer)
  * src/sip_phone/core/dtmf.py             (class DtmfProcessor)
  * src/sip_phone/core/audio_processor.py  (class AudioProcessor)

Conventions of the embedding:
  * Python byte strings become List Nat (each element a byte value).
  * numpy uint8 / int16 arithmetic wraps; the wrap is written explicitly
    (mod 256 for uint8, the int16 wrap for int16).  In the source the
    mu-law arithmetic is performed on numpy uint8 arrays (the result of
    np.frombuffer(..., dtype=np.uint8) and of operations between a uint8
    array and small Python int scalars, which keep the uint8 dtype under
    both value-based casting and NEP 50 weak-scalar promotion), so every
    intermediate of the decode formula wraps modulo 256.
  * float timestamps become rationals; Python's int() truncation toward
    zero is truncQ below.
  * Python falsiness is modeled exactly where the source branches on it:
    None and 0.0 are falsy for a timestamp, None and "" for a digit,
    an empty byte string / empty list is falsy for a frame.
  * asyncio waiting is modeled for the single-threaded (no concurrent
    writer) execution of one call: an await on an event that nobody can
    set blocks forever (ReadOutcome.blocked), a wait with a finite
    timeout on an unset event times out.
  * Exceptions are modeled with Except / explicit error constructors,
    carrying the state at the moment the exception escapes.
-/

namespace SipPhone

/-- Truncation toward zero, the semantics of Python's int() on a float. -/
def truncQ (x : ℚ) : Int := if 0 ≤ x then ⌊x⌋ else -⌊-x⌋

/-- Wrap an integer into numpy uint8 range [0, 256). -/
def u8 (z : Int) : Int := z % 256

/-- Wrap an integer into numpy int16 range [-32768, 32768). -/
def i16 (z : Int) : Int := (z + 32768) % 65536 - 32768

/-- Floor of the base-2 logarithm, by structural fuel recursion so that
it evaluates inside the kernel; for n >= 1 this is the integer part of
np.log2(n), which is what the uint8 truncation of log2(biased) - 6
amounts to for the biased values (>= 132) the encoder produces. -/
def floorLog2Aux : Nat → Nat → Nat
  | 0, _ => 0
  | fuel + 1, n => if 2 ≤ n then floorLog2Aux fuel (n / 2) + 1 else 0

/-- Floor of log2 with enough fuel for any input. -/
def floorLog2 (n : Nat) : Nat := floorLog2Aux n n

/-! ## core/buffer_manager.py, class AudioBuffer

Two bounded deques (raw and processed) guarded by one lock, one shared
`_data_available` asyncio.Event, and overflow/underflow counters. -/

namespace BufferManager

/-- A raw frame: one G.711-encoded byte string. -/
abbrev Frame := List Nat

/-- A processed payload written to the processed queue. -/
abbrev Samples := List ℚ

/-- State of core/buffer_manager.py's AudioBuffer: the two deques, the
max size, the shared data_available event and the two counters. -/
structure BufState where
  raw : List Frame
  processed : List Samples
  max_size : Nat
  data_available : Bool
  overflow_count : Nat
  underflow_count : Nat
deriving DecidableEq, Repr

/-- `write_raw` (buffer_manager.py lines 55-80): if the raw deque is at
capacity, increment the overflow counter and drop the new data (return);
otherwise append and set the data_available event. -/
def write_raw (st : BufState) (audio_data : Frame) : BufState :=
  if st.max_size ≤ st.raw.length then
    { st with overflow_count := st.overflow_count + 1 }
  else
    { st with raw := st.raw ++ [audio_data], data_available := true }

/-- `write_processed` (buffer_manager.py lines 82-107): same shape as
write_raw, on the processed deque, sharing the same event and counter. -/
def write_processed (st : BufState) (samples : Samples) : BufState :=
  if st.max_size ≤ st.processed.length then
    { st with overflow_count := st.overflow_count + 1 }
  else
    { st with processed := st.processed ++ [samples], data_available := true }

/-- Result of a read: either the call blocks forever (await on an event
no one will set), or it returns a value together with the new state. -/
inductive ReadOutcome (α : Type) where
  | blocked : ReadOutcome α
  | returned (v : Option α) (st : BufState) : ReadOutcome α
deriving DecidableEq, Repr

/-- `_wait_for_data` (buffer_manager.py lines 184-205) in the
single-threaded model: if the event is already set the wait returns True
at once; otherwise a finite timeout elapses and returns False, and a
None timeout blocks forever (modeled as Option.none result). -/
def wait_for_data (st : BufState) (timeout : Option ℚ) : Option Bool :=
  if st.data_available then some true
  else
    match timeout with
    | some _ => some false
    | none => none

/-- The lock-guarded body of `read_raw` (buffer_manager.py lines
127-139): re-check the deque; if still empty increment the underflow
counter and return None, else pop the oldest frame and clear the event
when the deque became empty. -/
def read_raw_locked (st : BufState) : ReadOutcome Frame :=
  match st.raw with
  | [] => .returned none { st with underflow_count := st.underflow_count + 1 }
  | d :: rest =>
      .returned (some d)
        { st with raw := rest,
                  data_available := if rest.isEmpty then false else st.data_available }

/-- `read_raw` (buffer_manager.py lines 109-143): if the raw deque is
empty, wait for data; on a timed-out wait return None with the state
unchanged (note: without touching the underflow counter); otherwise
enter the lock-guarded body. -/
def read_raw (st : BufState) (timeout : Option ℚ) : ReadOutcome Frame :=
  if st.raw.isEmpty then
    match wait_for_data st timeout with
    | none => .blocked
    | some false => .returned none st
    | some true => read_raw_locked st
  else
    read_raw_locked st

/-- `clear` (buffer_manager.py lines 217-224): empty both deques, reset
both counters to zero, clear the event. -/
def clear (st : BufState) : BufState :=
  { st with raw := [], processed := [],
            overflow_count := 0, underflow_count := 0,
            data_available := false }

/-- A sequence of `write_raw` calls with no intervening reads. -/
def write_all (st : BufState) (l : List Frame) : BufState :=
  l.foldl write_raw st

end BufferManager

/-! ## hardware/audio_buffer.py, class AudioBuffer

A deque of int16 samples with maxlen computed by floor division at
construction, a drop/overwrite overflow strategy, and a stats dict. -/

namespace HwBuffer

/-- Python exceptions that can escape the hardware buffer methods
(wrapped into AudioBufferError by the except clauses). -/
inductive PyExn where
  | zeroDivisionError
  | indexError
deriving DecidableEq, Repr

/-- The overflow_strategy argument: 'drop', or anything else, which the
write method treats as overwrite. -/
inductive Strategy where
  | drop
  | overwrite
deriving DecidableEq, Repr

/-- State of hardware/audio_buffer.py's AudioBuffer: the sample deque,
its maxlen (`samples_per_frame`), the construction parameters and the
stats counters. -/
structure HwState where
  buf : List Int
  maxlen : Nat
  channels : Nat
  sample_width : Nat
  strategy : Strategy
  total_writes : Nat
  total_reads : Nat
  overflows : Nat
  underflows : Nat
  dropped_samples : Nat
deriving DecidableEq, Repr

/-- `__init__` (audio_buffer.py lines 28-71): stores the parameters and
computes samples_per_frame = max_size_bytes // (channels * sample_width)
by floor division, with no divisibility validation at all; the only
failure is Python's ZeroDivisionError when channels * sample_width = 0. -/
def init (max_size_bytes channels sample_width : Nat) (strategy : Strategy) :
    Except PyExn HwState :=
  if channels * sample_width = 0 then .error .zeroDivisionError
  else
    .ok { buf := []
          maxlen := max_size_bytes / (channels * sample_width)
          channels := channels
          sample_width := sample_width
          strategy := strategy
          total_writes := 0
          total_reads := 0
          overflows := 0
          underflows := 0
          dropped_samples := 0 }

/-- `write` (audio_buffer.py lines 86-157) on an already-decoded list of
int16 samples.  If the data does not fit: under drop, count everything
dropped, bump overflows, and return (0, n) without writing; under
overwrite, popleft to_remove = len + n - maxlen times -- which raises
IndexError when to_remove exceeds the deque length, i.e. when n exceeds
maxlen -- then extend and return (n, to_remove).  When it fits, extend
and return (n, 0).  The timeout argument is never consulted. -/
def write (st : HwState) (samples : List Int) : Except PyExn (Nat × Nat × HwState) :=
  let n := samples.length
  if st.maxlen < st.buf.length + n then
    match st.strategy with
    | .drop =>
        .ok (0, n,
          { st with dropped_samples := st.dropped_samples + n,
                    overflows := st.overflows + 1 })
    | .overwrite =>
        let to_remove := st.buf.length + n - st.maxlen
        if st.buf.length < to_remove then
          .error .indexError
        else
          .ok (n, to_remove,
            { st with buf := st.buf.drop to_remove ++ samples,
                      dropped_samples := st.dropped_samples + to_remove,
                      overflows := st.overflows + 1,
                      total_writes := st.total_writes + 1 })
  else
    .ok (n, 0,
      { st with buf := st.buf ++ samples,
                total_writes := st.total_writes + 1 })

/-- `read` (audio_buffer.py lines 160-215): the timeout argument is
accepted but never used -- the method never waits.  With fewer than the
requested samples available it immediately increments underflows and
returns None; otherwise it pops the oldest samples. -/
def read (st : HwState) (samples : Nat) (timeout : Option ℚ) :
    Option (List Int) × HwState :=
  if st.buf.length < samples then
    (none, { st with underflows := st.underflows + 1 })
  else
    (some (st.buf.take samples),
     { st with buf := st.buf.drop samples, total_reads := st.total_reads + 1 })

end HwBuffer

/-! ## core/dtmf.py, class DtmfProcessor -/

namespace Dtmf

/-- The configuration the DTMF edge tracking reads, plus whether a
webhook manager was supplied (AudioProcessor constructs DtmfProcessor
with webhook_manager = None). -/
structure DtmfCfg where
  min_duration_ms : Int
  has_webhook_manager : Bool
deriving DecidableEq, Repr

/-- The per-call mutable edge-tracking state (_current_digit /
_digit_start_time of dtmf.py lines 50-51). -/
structure DtmfState where
  current_digit : Option String
  digit_start_time : Option ℚ
deriving DecidableEq, Repr

/-- A digit-completed event, the payload of
webhook_manager.dispatch_dtmf (dtmf.py lines 110-116). -/
structure DtmfEvent where
  digit : Option String
  call_id : String
  duration_ms : Int
deriving DecidableEq, Repr

/-- Python truthiness of an Optional[str]: None and the empty string are
falsy. -/
def truthyStr : Option String → Bool
  | none => false
  | some s => s != ""

/-- Python truthiness of an Optional[float] timestamp: None and 0.0 are
falsy. -/
def truthyTime : Option ℚ → Bool
  | none => false
  | some t => t != 0

/-- `_handle_digit_end` (dtmf.py lines 101-123).  `if not
self._digit_start_time: return` -- an early return for a None or 0.0
start time, leaving the state untouched.  Otherwise compute duration_ms
= int((end_time - start) * 1000); when it reaches min_duration_ms the
digit is dispatched -- the attribute access webhook_manager.dispatch_dtmf
raises AttributeError first when the manager is None -- and in every
non-raising path both fields are cleared at the end. -/
def handle_digit_end (cfg : DtmfCfg) (st : DtmfState) (call_id : String)
    (end_time : ℚ) : Except Unit (DtmfState × Option DtmfEvent) :=
  if truthyTime st.digit_start_time = false then .ok (st, none)
  else
    let start := st.digit_start_time.getD 0
    let duration_ms : Int := truncQ ((end_time - start) * 1000)
    if cfg.min_duration_ms ≤ duration_ms then
      if cfg.has_webhook_manager then
        .ok ({ current_digit := none, digit_start_time := none },
             some { digit := st.current_digit, call_id := call_id,
                    duration_ms := duration_ms })
      else
        .error ()
    else
      .ok ({ current_digit := none, digit_start_time := none }, none)

/-- Result of `process_audio`: normal return with the new state and the
event dispatched during the call (if any), or an AudioError raised by
the except clause, carrying the state at the moment it escapes. -/
inductive PaResult where
  | ok (st : DtmfState) (ev : Option DtmfEvent)
  | audioError (st : DtmfState)
deriving DecidableEq, Repr

/-- `process_audio` (dtmf.py lines 64-99), with the classification that
`_detect_dtmf` returned for this frame passed as a parameter.  In the
`if digit:` branch the local `current_time` is assigned and the edge
tracking runs.  In the `elif self._current_digit:` branch the source
passes `current_time` to `_handle_digit_end` although it was never
assigned on this path: Python raises UnboundLocalError there, which the
enclosing except clause turns into AudioError -- modeled as .audioError
with the state unchanged (nothing was mutated before the raise). -/
def process_audio (cfg : DtmfCfg) (st : DtmfState)
    (classification : Option String) (call_id : String) (now : ℚ) : PaResult :=
  if truthyStr classification then
    let d := classification.getD ""
    if st.current_digit = some d then
      .ok st none
    else
      match
        (if truthyStr st.current_digit then
          handle_digit_end cfg st call_id now
        else
          .ok (st, none)) with
      | .error _ => .audioError st
      | .ok (st1, ev) =>
          .ok { st1 with current_digit := some d, digit_start_time := some now } ev
  else
    if truthyStr st.current_digit then
      .audioError st
    else
      .ok st none

/-- The state a `process_audio` call leaves behind, whether it returned
normally or raised. -/
def paState : PaResult → DtmfState
  | .ok st _ => st
  | .audioError st => st

/-- The invariant of the claim set: digit_start_time is set (not None)
exactly when current_digit is set (not None). -/
def startIffDigit (st : DtmfState) : Prop :=
  st.digit_start_time.isSome = st.current_digit.isSome

instance (st : DtmfState) : Decidable (startIffDigit st) := by
  unfold startIffDigit; infer_instance

/-- `_ulaw_to_pcm` of dtmf.py (lines 208-229), at the level of one
encoded byte, before the float32 normalization.  All array arithmetic is
on numpy uint8 (bit-flip of the uint8 input, then products, sums and the
subtraction of 33 between uint8 arrays and in-range Python int scalars),
so every step wraps modulo 256. -/
def ulaw_to_pcm_u8 (b : Nat) : Int :=
  let e : Int := 255 - (b : Int) % 256
  let sign := u8 (1 - 2 * (e / 128))
  let mantissa := e % 16
  let exponent := (e / 16) % 8
  let p := u8 (2 ^ (exponent.toNat + 3))
  u8 (sign * u8 (u8 (u8 (mantissa * p) + p) - 33))

/-- `_ulaw_to_pcm` of dtmf.py including the final
`.astype(np.float32) / 32768.0` normalization (exact here: the uint8
value divided by 2^15 is exactly representable in float32). -/
def ulaw_to_pcm (b : Nat) : ℚ := (ulaw_to_pcm_u8 b : ℚ) / 32768

end Dtmf

/-! ## core/audio_processor.py: the G.711 codec -/

namespace AudioProc

/-- `_ulaw_to_pcm` of audio_processor.py (lines 232-253), one byte,
before normalization; the body is character-for-character the same as
dtmf.py's copy, with the same uint8 wrapping. -/
def ulaw_to_pcm_u8 (b : Nat) : Int :=
  let e : Int := 255 - (b : Int) % 256
  let sign := u8 (1 - 2 * (e / 128))
  let mantissa := e % 16
  let exponent := (e / 16) % 8
  let p := u8 (2 ^ (exponent.toNat + 3))
  u8 (sign * u8 (u8 (u8 (mantissa * p) + p) - 33))

/-- `_ulaw_to_pcm` of audio_processor.py including the normalization by
32768. -/
def ulaw_to_pcm (b : Nat) : ℚ := (ulaw_to_pcm_u8 b : ℚ) / 32768

/-- `_pcm_to_ulaw` (audio_processor.py lines 255-278) on one int16ue
sample value s16 (the arrays there are int16 after the astype in
`_encode_g711`).  sign from s16 < 0; np.abs on int16 maps -32768 to
itself; the bias add is int16 arithmetic (so it wraps above 32635) and
is then clipped to [0, 32767]; the exponent is the uint8 truncation of
log2(biased) - 6 clipped to [0, 7]; the mantissa takes 4 bits of the
shifted value; the packed byte is bit-inverted.  A biased value of 0
feeds log2 with 0 (-inf), whose uint8 cast is undefined: that case is
returned as none. -/
def pcm_to_ulaw (s16 : Int) : Option Nat :=
  let sign : Nat := if s16 < 0 then 1 else 0
  let mag : Int := if s16 = -32768 then -32768 else (s16.natAbs : Int)
  let wrapped : Int := i16 (mag + 132)
  let biased : Int := if wrapped < 0 then 0 else if 32767 < wrapped then 32767 else wrapped
  if biased ≤ 0 then none
  else
    let e0 : Nat := floorLog2 biased.toNat - 6
    let exponent : Nat := if 7 ≤ e0 then 7 else e0
    let mantissa : Nat := (biased.toNat >>> (exponent + 3)) &&& 15
    some (255 - (sign * 128 + exponent * 16 + mantissa))

/-- `_encode_g711` (audio_processor.py lines 214-230) on one normalized
sample: scale by 32768, astype(np.int16) (truncation toward zero, then
int16 wrap), then `_pcm_to_ulaw`. -/
def encode_g711 (x : ℚ) : Option Nat := pcm_to_ulaw (i16 (truncQ (x * 32768)))

/-- The decode formula exactly as claim C7 states it, with ordinary
(unbounded) integer arithmetic: bit-invert, extract sign, exponent and
mantissa, reconstruct sign * (mantissa * 2^(exponent+3) + 2^(exponent+3)
- 33).  Written from the spec's words, to be compared with the source
embedding above. -/
def ulawSpecValue (b : Nat) : Int :=
  let e : Int := 255 - (b : Int) % 256
  let sign := 1 - 2 * (e / 128)
  let mantissa := e % 16
  let exponent := (e / 16) % 8
  sign * (mantissa * 2 ^ (exponent.toNat + 3) + 2 ^ (exponent.toNat + 3) - 33)

/-- The claim C7 decode function: the spec formula divided by 32768. -/
def ulawSpec (b : Nat) : ℚ := (ulawSpecValue b : ℚ) / 32768

/-- The amended decode function: the same formula reduced modulo 256
(the uint8 wrap the numpy arithmetic performs), then divided by 32768. -/
def ulawSpecWrapped (b : Nat) : ℚ := (u8 (ulawSpecValue b) : ℚ) / 32768

end AudioProc

/-! ## core/audio_processor.py: the pipeline (class AudioProcessor) -/

namespace Pipeline

open BufferManager Dtmf

/-- State of the AudioProcessor instance: the running flag, its
AudioBuffer, the DtmfProcessor state, and the two frame counters
(_processed_frames / _dropped_frames).  The float _last_level statistic
(a log10 of a mean) is outside the claims and not modeled. -/
structure PipeState where
  running : Bool
  buffer : BufState
  dtmf : DtmfState
  processed_frames : Nat
  dropped_frames : Nat
deriving DecidableEq, Repr

/-- `stop` (audio_processor.py lines 75-90): a no-op when not running;
otherwise clear the running flag, cancel the loop task, and call
buffer.clear() -- which also resets the buffer's overflow and underflow
counters (buffer_manager.py lines 217-224). -/
def stop (st : PipeState) : PipeState :=
  if st.running then
    { st with running := false, buffer := BufferManager.clear st.buffer }
  else st

/-- `start` (audio_processor.py lines 66-73): a no-op when already
running; otherwise set the running flag and spawn the loop task. -/
def start (st : PipeState) : PipeState :=
  if st.running then st else { st with running := true }

/-- `process_frame` (audio_processor.py lines 92-125).  The frame is
decoded (total), the gain/AGC/noise-gate chain `_apply_processing` is
applied -- its float arithmetic is kept abstract as the `transform`
parameter since no claim depends on the transformed values -- then
`self.dtmf.process_audio` runs (classification passed as a parameter, as
in the Dtmf embedding).  The only raising step in the body is the DTMF
call; on its AudioError the except clause increments _dropped_frames and
re-raises (result none).  On success the processed samples are returned
(the re-encoding step maps each sample to one byte and is dropped from
the state-level model; no claim reads the produced bytes and its
emptiness, which the loop tests, agrees with the samples list). -/
def process_frame (cfg : DtmfCfg) (transform : List ℚ → List ℚ)
    (st : PipeState) (frame : Frame) (classification : Option String)
    (call_id : String) (now : ℚ) : PipeState × Option (List ℚ) :=
  let samples := frame.map AudioProc.ulaw_to_pcm
  let processed := transform samples
  match Dtmf.process_audio cfg st.dtmf classification call_id now with
  | .audioError d =>
      ({ st with dtmf := d, dropped_frames := st.dropped_frames + 1 }, none)
  | .ok d _ev =>
      ({ st with dtmf := d }, some processed)

/-- One iteration of `_processing_loop` (audio_processor.py lines
127-147) while running: read_raw with timeout 0.1; `if not raw_data:
continue` skips both a None and an empty (falsy) frame; then
process_frame under a try whose except increments _dropped_frames again
and continues; on success `if processed:` guards the write_processed and
the _processed_frames increment.  The stream-handler fan-out mutates no
pipeline state and is omitted. -/
def loop_iter (cfg : DtmfCfg) (transform : List ℚ → List ℚ)
    (classify : Frame → Option String) (now : ℚ) (st : PipeState) : PipeState :=
  match BufferManager.read_raw st.buffer (some (1 / 10)) with
  | .blocked => st
  | .returned v b =>
      let st1 := { st with buffer := b }
      match v with
      | none => st1
      | some frame =>
          if frame.isEmpty then st1
          else
            match process_frame cfg transform st1 frame (classify frame) "default" now with
            | (st2, none) => { st2 with dropped_frames := st2.dropped_frames + 1 }
            | (st2, some processed) =>
                if processed.isEmpty then st2
                else
                  { st2 with
                    buffer := BufferManager.write_processed st2.buffer processed,
                    processed_frames := st2.processed_frames + 1 }

end Pipeline

/-! ## Concrete states used by the witnesses and counterexamples -/

/-- A freshly constructed core AudioBuffer with the default max_size of
50: both deques empty, event unset, counters zero. -/
def c1_empty_buf : BufferManager.BufState :=
  { raw := [], processed := [], max_size := 50, data_available := false,
    overflow_count := 0, underflow_count := 0 }

/-- A hardware buffer with maxlen 4 (constructed from 8 bytes of 16-bit
mono audio) and an empty deque. -/
def c1_hw : HwBuffer.HwState :=
  { buf := [], maxlen := 4, channels := 1, sample_width := 2,
    strategy := .drop, total_writes := 0, total_reads := 0,
    overflows := 0, underflows := 0, dropped_samples := 0 }

/-- A fresh core AudioBuffer of capacity 2. -/
def c4_buf : BufferManager.BufState :=
  { raw := [], processed := [], max_size := 2, data_available := false,
    overflow_count := 0, underflow_count := 0 }

/-- The hardware buffer AudioBuffer(8, 1, 2, 'overwrite') constructs:
maxlen = 8 // 2 = 4. -/
def c5_hw : HwBuffer.HwState :=
  { buf := [], maxlen := 4, channels := 1, sample_width := 2,
    strategy := .overwrite, total_writes := 0, total_reads := 0,
    overflows := 0, underflows := 0, dropped_samples := 0 }

/-- An overwrite-mode hardware buffer of maxlen 4 holding 4 samples. -/
def c5_full_hw : HwBuffer.HwState :=
  { buf := [1, 2, 3, 4], maxlen := 4, channels := 1, sample_width := 2,
    strategy := .overwrite, total_writes := 4, total_reads := 0,
    overflows := 0, underflows := 0, dropped_samples := 0 }

/-- The hardware buffer AudioBuffer(5, 1, 2, 'drop') constructs: 5 is
not divisible by channels * sample_width = 2, yet construction succeeds
with samples_per_frame = 5 // 2 = 2. -/
def c8_hw : HwBuffer.HwState :=
  { buf := [], maxlen := 2, channels := 1, sample_width := 2,
    strategy := .drop, total_writes := 0, total_reads := 0,
    overflows := 0, underflows := 0, dropped_samples := 0 }

/-- The default DtmfProcessor configuration: min_duration_ms = 40, with
a webhook manager attached. -/
def dtmf_cfg : Dtmf.DtmfCfg := { min_duration_ms := 40, has_webhook_manager := true }

/-- A detector state in the middle of digit 5, started at t = 10 s. -/
def c2_state : Dtmf.DtmfState := { current_digit := some "5", digit_start_time := some 10 }

/-- The initial detector state: no digit active. -/
def dtmf_idle : Dtmf.DtmfState := { current_digit := none, digit_start_time := none }

/-- A running pipeline whose buffer has accumulated overflow count 5,
underflow count 3, one queued raw frame and one processed payload, with
7 processed and 2 dropped frames. -/
def c6_state : Pipeline.PipeState :=
  { running := true
    buffer := { raw := [[1]], processed := [[0]], max_size := 50,
                data_available := true, overflow_count := 5, underflow_count := 3 }
    dtmf := dtmf_idle
    processed_frames := 7
    dropped_frames := 2 }

/-- A running pipeline holding one queued nonempty raw frame while the
detector is mid-digit -- the configuration in which a no-tone frame
makes process_frame raise. -/
def c10_state : Pipeline.PipeState :=
  { running := true
    buffer := { raw := [[1]], processed := [], max_size := 50,
                data_available := true, overflow_count := 0, underflow_count := 0 }
    dtmf := c2_state
    processed_frames := 3
    dropped_frames := 4 }

/-! ## Theorems -/

namespace BufferManager

/-- After any sequence of write_raw calls, the raw deque is the old
contents followed by the writes that fit into the remaining room. -/
theorem write_all_raw (l : List Frame) (st : BufState) :
    (write_all st l).raw = st.raw ++ l.take (st.max_size - st.raw.length) := by
  induction l generalizing st with
  | nil => simp [write_all]
  | cons a l ih =>
    simp only [write_all, List.foldl_cons] at ih ⊢
    by_cases h : st.max_size ≤ st.raw.length
    · rw [show write_raw st a = { st with overflow_count := st.overflow_count + 1 } from by
        simp [write_raw, h]]
      rw [ih]
      simp [Nat.sub_eq_zero_of_le h]
    · rw [show write_raw st a = { st with raw := st.raw ++ [a], data_available := true } from by
        simp [write_raw, h]]
      rw [ih]
      have h1 : st.max_size - st.raw.length = (st.max_size - (st.raw.length + 1)) + 1 := by
        omega
      simp [h1, List.append_assoc]

/-- After any sequence of write_raw calls, the overflow counter has
grown by the number of writes that did not fit. -/
theorem write_all_overflow (l : List Frame) (st : BufState) :
    (write_all st l).overflow_count
      = st.overflow_count + (l.length - (st.max_size - st.raw.length)) := by
  induction l generalizing st with
  | nil => simp [write_all]
  | cons a l ih =>
    simp only [write_all, List.foldl_cons] at ih ⊢
    by_cases h : st.max_size ≤ st.raw.length
    · rw [show write_raw st a = { st with overflow_count := st.overflow_count + 1 } from by
        simp [write_raw, h]]
      rw [ih]
      simp only [List.length_cons]
      omega
    · rw [show write_raw st a = { st with raw := st.raw ++ [a], data_available := true } from by
        simp [write_raw, h]]
      rw [ih]
      simp only [List.length_append, List.length_cons, List.length_nil]
      omega

end BufferManager

/-- Claim C4: for a fresh buffer of capacity C under the drop policy,
after C + K single-frame writes (K > 0) with no reads the deque holds
exactly the first C frames written (so the K most-recent writes are the
dropped ones), its length is C, the overflow counter is K, and no
intermediate point ever had more than C frames queued. -/
theorem c4_drop_policy (st : BufferManager.BufState) (l : List BufferManager.Frame)
    (C K : Nat) (h0 : st.raw = []) (h1 : st.overflow_count = 0)
    (h2 : st.max_size = C) (h3 : l.length = C + K) (hK : 0 < K) :
    (BufferManager.write_all st l).raw = l.take C ∧
    (BufferManager.write_all st l).raw.length = C ∧
    (BufferManager.write_all st l).overflow_count = K ∧
    ∀ j : Nat, ((BufferManager.write_all st (l.take j)).raw).length ≤ C := by
  have hr := BufferManager.write_all_raw l st
  have ho := BufferManager.write_all_overflow l st
  rw [h0, h2] at hr
  rw [h0, h1, h2] at ho
  simp only [List.length_nil, Nat.sub_zero, List.nil_append, Nat.zero_add] at hr ho
  refine ⟨hr, ?_, ?_, ?_⟩
  · rw [hr, List.length_take, h3]; omega
  · rw [ho, h3]; omega
  · intro j
    have hj := BufferManager.write_all_raw (l.take j) st
    rw [h0, h2] at hj
    simp only [List.length_nil, Nat.sub_zero, List.nil_append] at hj
    rw [hj, List.length_take]
    omega

/-- Witness for C4 at C = 2, K = 1: three writes into a fresh capacity-2
buffer leave length 2 and overflow count 1. -/
theorem c4_drop_policy_witness :
    (BufferManager.write_all c4_buf [[0], [1], [2]]).raw.length = 2 ∧
    (BufferManager.write_all c4_buf [[0], [1], [2]]).overflow_count = 1 :=
  ⟨(c4_drop_policy c4_buf [[0], [1], [2]] 2 1 rfl rfl rfl rfl (by decide)).2.1,
   (c4_drop_policy c4_buf [[0], [1], [2]] 2 1 rfl rfl rfl rfl (by decide)).2.2.1⟩

/-- Claim C1 counterexample: on a fresh (empty, event unset) buffer, a
read_raw with timeout 1 s returns None with the state unchanged -- in
particular the underflow counter stays 0 instead of being incremented by
exactly 1 as the claim requires. -/
theorem c1_counterexample :
    BufferManager.read_raw c1_empty_buf (some 1) = .returned none c1_empty_buf ∧
    c1_empty_buf.underflow_count = 0 ∧
    BufferManager.read_raw c1_empty_buf (some 1)
      ≠ .returned none
          { c1_empty_buf with underflow_count := c1_empty_buf.underflow_count + 1 } :=
  ⟨rfl, rfl, by decide⟩

/-- Claim C1 as amended: read on an empty buffer returns empty rather
than a frame, and timeout None blocks indefinitely in
core/buffer_manager -- but there a timed-out read leaves underflow_count
unchanged, while hardware/audio_buffer's read never waits at all: with
insufficient data it returns None immediately and increments underflows
by exactly 1, for every timeout including None. -/
theorem c1_amended_read_behavior (st : BufferManager.BufState) (T : ℚ)
    (hw : HwBuffer.HwState) (n : Nat) (tm : Option ℚ)
    (h1 : st.raw = []) (h2 : st.data_available = false)
    (h3 : hw.buf.length < n) :
    BufferManager.read_raw st (some T) = .returned none st ∧
    BufferManager.read_raw st none = .blocked ∧
    HwBuffer.read hw n tm = (none, { hw with underflows := hw.underflows + 1 }) := by
  refine ⟨?_, ?_, ?_⟩
  · unfold BufferManager.read_raw BufferManager.wait_for_data
    simp [h1, h2]
  · unfold BufferManager.read_raw BufferManager.wait_for_data
    simp [h1, h2]
  · unfold HwBuffer.read
    rw [if_pos h3]

/-- Witness for the amended C1 on the concrete fresh buffers. -/
theorem c1_amended_read_behavior_witness :
    BufferManager.read_raw c1_empty_buf (some 1) = .returned none c1_empty_buf ∧
    BufferManager.read_raw c1_empty_buf none = .blocked ∧
    HwBuffer.read c1_hw 1 none = (none, { c1_hw with underflows := c1_hw.underflows + 1 }) :=
  c1_amended_read_behavior c1_empty_buf 1 c1_hw 1 none rfl rfl (by decide)

/-- Claim C5 counterexample: on the freshly constructed overwrite-mode
hardware buffer of capacity 4 samples, writing 10 samples -- data larger
than the whole buffer -- raises (popleft on an emptied deque gives
IndexError, surfaced as AudioBufferError), contradicting that a write of
any size never raises on overflow. -/
theorem c5_counterexample :
    HwBuffer.init 8 1 2 .overwrite = .ok c5_hw ∧
    HwBuffer.write c5_hw (List.replicate 10 0) = .error .indexError :=
  ⟨rfl, rfl⟩

/-- Claim C5 as amended: under the overwrite policy a write whose sample
count does not exceed the buffer capacity never raises on overflow; when
the data does not fit, the oldest entries are evicted to make room, the
dropped count returned equals the number of entries evicted, and the
overflow counter increments by 1.  (A write larger than the whole
capacity instead raises IndexError from popleft on an emptied deque.) -/
theorem c5_amended_overwrite (st : HwBuffer.HwState) (data : List Int)
    (hs : st.strategy = .overwrite)
    (hn : data.length ≤ st.maxlen)
    (hov : st.maxlen < st.buf.length + data.length) :
    HwBuffer.write st data
      = .ok (data.length, st.buf.length + data.length - st.maxlen,
          { st with
            buf := st.buf.drop (st.buf.length + data.length - st.maxlen) ++ data,
            dropped_samples :=
              st.dropped_samples + (st.buf.length + data.length - st.maxlen),
            overflows := st.overflows + 1,
            total_writes := st.total_writes + 1 }) := by
  unfold HwBuffer.write
  rw [if_pos hov, hs]
  have hle : ¬ st.buf.length < st.buf.length + data.length - st.maxlen := by omega
  rw [if_neg hle]

/-- Witness for the amended C5: two samples into a full
capacity-4 overwrite buffer evict the two oldest, return dropped = 2,
and bump the overflow counter once. -/
theorem c5_amended_overwrite_witness :
    HwBuffer.write c5_full_hw [9, 9]
      = .ok (2, 2,
          { c5_full_hw with
            buf := [3, 4, 9, 9],
            dropped_samples := 2,
            overflows := 1,
            total_writes := 5 }) := by
  have h := c5_amended_overwrite c5_full_hw [9, 9] rfl (by decide) (by decide)
  simpa using h

/-- Claim C8 counterexample: AudioBuffer(5, 1, 2, 'drop') has a raw size
(5 bytes) not divisible by the sample width (2 bytes), yet construction
succeeds and returns a complete object with samples_per_frame = 2 -- no
configuration error is raised at construction or ever. -/
theorem c8_counterexample :
    HwBuffer.init 5 1 2 .drop = .ok c8_hw ∧ 5 % (1 * 2) ≠ 0 :=
  ⟨rfl, by decide⟩

/-- Claim C8 as amended: construction performs no divisibility check at
all -- for every max_size_bytes it succeeds whenever channels *
sample_width is nonzero, silently floor-dividing to samples_per_frame;
the only construction-time failure is the ZeroDivisionError when
channels * sample_width = 0. -/
theorem c8_amended_init (m c w : Nat) (s : HwBuffer.Strategy) (h : 0 < c * w) :
    HwBuffer.init m c w s
      = .ok { buf := [], maxlen := m / (c * w), channels := c, sample_width := w,
              strategy := s, total_writes := 0, total_reads := 0,
              overflows := 0, underflows := 0, dropped_samples := 0 } := by
  unfold HwBuffer.init
  rw [if_neg (by omega)]

/-- Witness for the amended C8 at the non-divisible size 5. -/
theorem c8_amended_init_witness :
    HwBuffer.init 5 1 2 .drop
      = .ok { buf := [], maxlen := 5 / (1 * 2), channels := 1, sample_width := 2,
              strategy := .drop, total_writes := 0, total_reads := 0,
              overflows := 0, underflows := 0, dropped_samples := 0 } :=
  c8_amended_init 5 1 2 .drop (by decide)

/-- Claim C2: processing a no-tone frame while digit 5 is active does
not end the digit -- it raises.  The source's no-tone branch passes the
local current_time to _handle_digit_end although that local is only
assigned in the tone branch, so Python raises UnboundLocalError, which
the except clause re-raises as AudioError; the digit state is left in
place rather than cleared. -/
theorem c2_no_tone_raises :
    Dtmf.process_audio dtmf_cfg c2_state none "call-1" 11 = .audioError c2_state ∧
    Dtmf.truthyStr c2_state.current_digit = true ∧
    (Dtmf.paState (Dtmf.process_audio dtmf_cfg c2_state none "call-1" 11)).current_digit
      = some "5" :=
  ⟨rfl, rfl, rfl⟩

/-- Claim C9: the invariant "digit_start_time is set iff current_digit
is set" is preserved by process_audio for every configuration, state,
classification, call id and timestamp (including 0.0), whether the call
returns normally or raises. -/
theorem c9_invariant (cfg : Dtmf.DtmfCfg) (st : Dtmf.DtmfState)
    (cls : Option String) (cid : String) (now : ℚ)
    (h : Dtmf.startIffDigit st) :
    Dtmf.startIffDigit (Dtmf.paState (Dtmf.process_audio cfg st cls cid now)) := by
  unfold Dtmf.process_audio
  by_cases hc : Dtmf.truthyStr cls
  · rw [if_pos hc]
    by_cases he : st.current_digit = some (cls.getD "")
    · rw [if_pos he]; exact h
    · rw [if_neg he]
      rcases hh : (if Dtmf.truthyStr st.current_digit then
          Dtmf.handle_digit_end cfg st cid now
        else .ok (st, none)) with e | ⟨st1, ev⟩
      · exact h
      · rfl
  · rw [if_neg hc]
    by_cases hd : Dtmf.truthyStr st.current_digit
    · rw [if_pos hd]; exact h
    · rw [if_neg hd]; exact h

/-- Witness for C9: the invariant holds after processing a tone frame
from the idle state at timestamp 0.0. -/
theorem c9_invariant_witness :
    Dtmf.startIffDigit
      (Dtmf.paState (Dtmf.process_audio dtmf_cfg dtmf_idle (some "1") "call-1" 0)) :=
  c9_invariant dtmf_cfg dtmf_idle (some "1") "call-1" 0 (by decide)

set_option maxRecDepth 20000 in
/-- On every byte, the implemented decoder equals the claimed formula
reduced modulo 256 (the uint8 wrap). -/
theorem ulaw_u8_eq_wrapped :
    ∀ b : Fin 256, AudioProc.ulaw_to_pcm_u8 b.val = u8 (AudioProc.ulawSpecValue b.val) := by
  decide

/-- Claim C3: the decode-then-encode round trip fails far outside any
mu-law quantization tolerance.  Decoding byte 0x00 yields 33/32768 (the
intended value, -16351/32768, is destroyed by the uint8 wrap of the
numpy arithmetic); re-encoding that sample yields byte 229, which
decodes to 143/32768.  The re-decoded sample differs from the original
decode by 110/32768, while adjacent codes in byte 229's segment
(exponent 1) are only 16/32768 apart -- about seven quantization steps
of error, so the round-trip law of the claim is violated by the code. -/
theorem c3_roundtrip_violated :
    AudioProc.ulaw_to_pcm 0 = 33 / 32768 ∧
    AudioProc.encode_g711 (AudioProc.ulaw_to_pcm 0) = some 229 ∧
    AudioProc.ulaw_to_pcm 229 = 143 / 32768 ∧
    AudioProc.ulaw_to_pcm 229 - AudioProc.ulaw_to_pcm 0 = 110 / 32768 ∧
    (16 : ℚ) / 32768 < 110 / 32768 := by
  have hd0 : AudioProc.ulaw_to_pcm 0 = 33 / 32768 := by
    unfold AudioProc.ulaw_to_pcm
    rw [show AudioProc.ulaw_to_pcm_u8 0 = 33 by decide]
    norm_num
  have hd229 : AudioProc.ulaw_to_pcm 229 = 143 / 32768 := by
    unfold AudioProc.ulaw_to_pcm
    rw [show AudioProc.ulaw_to_pcm_u8 229 = 143 by decide]
    norm_num
  refine ⟨hd0, ?_, hd229, ?_, by norm_num⟩
  · unfold AudioProc.encode_g711
    rw [hd0]
    rw [show ((33 : ℚ) / 32768) * 32768 = ((33 : Int) : ℚ) by norm_num]
    rw [show truncQ ((33 : Int) : ℚ) = 33 by
      unfold truncQ
      rw [if_pos (by norm_num), Int.floor_intCast]]
    decide
  · rw [hd0, hd229]; norm_num

/-- Claim C7 counterexample: at byte 0x00 the implemented decoder
returns 33/32768, not the -16351/32768 the claimed formula produces --
the numpy uint8 arithmetic wraps every intermediate modulo 256. -/
theorem c7_counterexample :
    AudioProc.ulaw_to_pcm 0 = 33 / 32768 ∧
    AudioProc.ulawSpec 0 = (-16351) / 32768 ∧
    AudioProc.ulaw_to_pcm 0 ≠ AudioProc.ulawSpec 0 := by
  have hd0 : AudioProc.ulaw_to_pcm 0 = 33 / 32768 := by
    unfold AudioProc.ulaw_to_pcm
    rw [show AudioProc.ulaw_to_pcm_u8 0 = 33 by decide]
    norm_num
  have hs0 : AudioProc.ulawSpec 0 = (-16351) / 32768 := by
    unfold AudioProc.ulawSpec
    rw [show AudioProc.ulawSpecValue 0 = -16351 by decide]
    norm_num
  exact ⟨hd0, hs0, by rw [hd0, hs0]; norm_num⟩

/-- Claim C7 as amended: for every encoded byte, decode bit-inverts,
extracts the 1-bit sign, 3-bit exponent and 4-bit mantissa, reconstructs
sign * (mantissa * 2^(exponent+3) + 2^(exponent+3) - 33) with the
arithmetic wrapping modulo 256 (it runs on numpy uint8 arrays), and
divides by 32768; the pipeline's and the detector's decoders compute
this same function. -/
theorem c7_amended_decoders (b : Fin 256) :
    AudioProc.ulaw_to_pcm b.val = AudioProc.ulawSpecWrapped b.val ∧
    Dtmf.ulaw_to_pcm b.val = AudioProc.ulaw_to_pcm b.val := by
  constructor
  · unfold AudioProc.ulaw_to_pcm AudioProc.ulawSpecWrapped
    rw [ulaw_u8_eq_wrapped b]
  · rfl

/-- Claim C6 counterexample: stopping the running pipeline whose buffer
has overflow count 5 leaves the overflow counter at 0 after stop and
restart -- not at its pre-stop value -- because stop() invokes
buffer.clear(), which resets both buffer counters. -/
theorem c6_counterexample :
    c6_state.buffer.overflow_count = 5 ∧
    c6_state.running = true ∧
    (Pipeline.start (Pipeline.stop c6_state)).buffer.overflow_count = 0 :=
  ⟨rfl, rfl, rfl⟩

/-- Claim C6 as amended: stopping a running pipeline empties both
buffers, and after a subsequent start the processor's own processed- and
dropped-frame counters hold their pre-stop values; the buffer's overflow
and underflow counters, however, are reset to 0 by the stop, because
stop() calls buffer.clear() and clear() resets them along with the
queues. -/
theorem c6_amended_stop_start (st : Pipeline.PipeState) (h : st.running = true) :
    (Pipeline.stop st).buffer.raw = [] ∧
    (Pipeline.stop st).buffer.processed = [] ∧
    (Pipeline.start (Pipeline.stop st)).running = true ∧
    (Pipeline.start (Pipeline.stop st)).processed_frames = st.processed_frames ∧
    (Pipeline.start (Pipeline.stop st)).dropped_frames = st.dropped_frames ∧
    (Pipeline.start (Pipeline.stop st)).buffer.overflow_count = 0 ∧
    (Pipeline.start (Pipeline.stop st)).buffer.underflow_count = 0 := by
  unfold Pipeline.start Pipeline.stop BufferManager.clear
  rw [h]
  simp

/-- Witness for the amended C6 on the concrete running pipeline. -/
theorem c6_amended_stop_start_witness :
    (Pipeline.stop c6_state).buffer.raw = [] ∧
    (Pipeline.stop c6_state).buffer.processed = [] ∧
    (Pipeline.start (Pipeline.stop c6_state)).running = true ∧
    (Pipeline.start (Pipeline.stop c6_state)).processed_frames = c6_state.processed_frames ∧
    (Pipeline.start (Pipeline.stop c6_state)).dropped_frames = c6_state.dropped_frames ∧
    (Pipeline.start (Pipeline.stop c6_state)).buffer.overflow_count = 0 ∧
    (Pipeline.start (Pipeline.stop c6_state)).buffer.underflow_count = 0 :=
  c6_amended_stop_start c6_state rfl

/-- Claim C10: when the frame at the head of the raw buffer makes
process_frame fail (its DTMF step raises), one loop iteration increases
the dropped-frames counter by exactly 2 -- once in process_frame's own
except clause before it re-raises, once more in the loop's except clause
-- while a direct process_frame call on the same frame increases it by
exactly 1. -/
theorem c10_double_count (cfg : Dtmf.DtmfCfg) (transform : List ℚ → List ℚ)
    (classify : BufferManager.Frame → Option String) (now : ℚ)
    (st : Pipeline.PipeState) (frame : BufferManager.Frame)
    (rest : List BufferManager.Frame) (d : Dtmf.DtmfState)
    (hbuf : st.buffer.raw = frame :: rest)
    (hne : frame.isEmpty = false)
    (hfail : Dtmf.process_audio cfg st.dtmf (classify frame) "default" now
      = .audioError d) :
    (Pipeline.loop_iter cfg transform classify now st).dropped_frames
        = st.dropped_frames + 2 ∧
    (Pipeline.process_frame cfg transform st frame (classify frame) "default"
        now).1.dropped_frames
      = st.dropped_frames + 1 := by
  have hread : BufferManager.read_raw st.buffer (some (1 / 10))
      = BufferManager.ReadOutcome.returned (some frame)
          { st.buffer with
            raw := rest,
            data_available :=
              if rest.isEmpty then false else st.buffer.data_available } := by
    unfold BufferManager.read_raw BufferManager.read_raw_locked
    rw [hbuf]
    rfl
  constructor
  · unfold Pipeline.loop_iter
    rw [hread]
    simp only [hne, Bool.false_eq_true, if_false]
    unfold Pipeline.process_frame
    simp only [hfail]
  · unfold Pipeline.process_frame
    rw [hfail]

/-- Witness for C10 on the concrete running pipeline: the loop iteration
moves dropped_frames from 4 to 6, the direct call moves it to 5. -/
theorem c10_double_count_witness :
    (Pipeline.loop_iter dtmf_cfg id (fun _ => none) 0 c10_state).dropped_frames
        = c10_state.dropped_frames + 2 ∧
    (Pipeline.process_frame dtmf_cfg id c10_state [1] ((fun _ => none) ([1] : BufferManager.Frame))
        "default" 0).1.dropped_frames
      = c10_state.dropped_frames + 1 :=
  c10_double_count dtmf_cfg id (fun _ => none) 0 c10_state [1] [] c2_state
    rfl rfl rfl

end SipPhone
